import Mathlib

/-!
Verification of the Defaults Registry and Propagation Model of the
Spiny Flannel Society prototype.

The definitions below are a shallow embedding of the Python source:
  * `src/core/defaults_registry.py` — `Default`, `DefaultsRegistry`
  * `src/core/events.py`            — `Event`, `EventBus` (history)
  * `src/systems/signals.py`        — `TranslationVerbs`
  * `src/accessibility/sensory_rules.py` — `get_sensory_profile`
  * `src/systems/windprint.py`      — `get_route_flexibility`
  * `src/accessibility/presets.py`  — `PRESETS`
  * `src/narrative/chapters_data.py` — `CHAPTERS`

Numeric registry values are embedded as rationals (every literal in the
source is a short decimal, and every computation the theorems touch is
exact).  Python float formatting inside f-strings is abstracted by
`toString` on the rational; no theorem depends on the rendered digits.
Mutation of Python objects is embedded as explicit state passing.
-/

namespace SpinyFlannel

/-- `DefaultCategory` from src/core/defaults_registry.py: which aspect of
the Society a default governs. -/
inductive DefaultCategory where
  | TIMING
  | SENSORY
  | ROUTING
  | SOCIAL
  | FAILURE
  | CONSENT
deriving DecidableEq, Repr

/-- The `Default` dataclass from src/core/defaults_registry.py: a single
rewritable default. -/
structure Default where
  key : String
  label : String
  description : String
  category : DefaultCategory
  rigid_value : ℚ
  rewritten_value : ℚ
  current_value : ℚ
  is_read : Bool
  is_rewritten : Bool
deriving DecidableEq, Repr

/-- Constructing a `Default` without passing `current_value`:
`__post_init__` sets `current_value` to `rigid_value` when it was left as
`None`.  Every registration in `_register_all` uses this form. -/
def Default.make (key label description : String) (category : DefaultCategory)
    (rigid_value rewritten_value : ℚ) : Default :=
  { key := key
    label := label
    description := description
    category := category
    rigid_value := rigid_value
    rewritten_value := rewritten_value
    current_value := rigid_value
    is_read := false
    is_rewritten := false }

/-- `Default.read`: sets `is_read = True` and returns the description
string.  The mutated object is returned alongside the result. -/
def Default.read (d : Default) : Default × String :=
  ({ d with is_read := true },
    "[" ++ d.label ++ "]\n  Assumption: " ++ d.description
      ++ "\n  Current value: " ++ toString d.current_value
      ++ "\n  Rigid default: " ++ toString d.rigid_value)

/-- `Default.rewrite`: returns `False` without mutation when `is_read`
is false; otherwise sets `is_rewritten = True` and
`current_value = rewritten_value` and returns `True`. -/
def Default.rewrite (d : Default) : Default × Bool :=
  if d.is_read = false then (d, false)
  else ({ d with is_rewritten := true, current_value := d.rewritten_value }, true)

/-- The registry's `_defaults` dict, embedded as an insertion-ordered
association list of `Default` entries (Python dicts preserve insertion
order; `_register` keeps keys unique). -/
abbrev Registry := List Default

/-- `self._defaults.get(key)`: the entry stored under `key`, if any. -/
def lookupDefault (r : Registry) (key : String) : Option Default :=
  r.find? (fun d => d.key == key)

/-- `DefaultsRegistry.get`: `d.current_value if d else None`. -/
def DefaultsRegistry.get (r : Registry) (key : String) : Option ℚ :=
  (lookupDefault r key).map (fun d => d.current_value)

/-- `DefaultsRegistry.read`: `d.read() if d else None`, with the dict
entry updated in place. -/
def DefaultsRegistry.read (r : Registry) (key : String) : Registry × Option String :=
  match lookupDefault r key with
  | none => (r, none)
  | some d =>
      let res := Default.read d
      (r.map (fun e => if e.key == key then res.1 else e), some res.2)

/-- `DefaultsRegistry.rewrite`: `d.rewrite() if d else False`, with the
dict entry updated in place. -/
def DefaultsRegistry.rewrite (r : Registry) (key : String) : Registry × Bool :=
  match lookupDefault r key with
  | none => (r, false)
  | some d =>
      let res := Default.rewrite d
      (r.map (fun e => if e.key == key then res.1 else e), res.2)

/-- `DefaultsRegistry.rewritten_count`: `sum(1 for d in ... if d.is_rewritten)`. -/
def DefaultsRegistry.rewritten_count (r : Registry) : Nat :=
  r.countP (fun d => d.is_rewritten)

/-- `DefaultsRegistry.read_count`: `sum(1 for d in ... if d.is_read)`. -/
def DefaultsRegistry.read_count (r : Registry) : Nat :=
  r.countP (fun d => d.is_read)

/-- `DefaultsRegistry.progress`: fraction of defaults rewritten, `0.0`
for an empty registry. -/
def DefaultsRegistry.progress (r : Registry) : ℚ :=
  if r.length = 0 then 0
  else (DefaultsRegistry.rewritten_count r : ℚ) / (r.length : ℚ)

/-- `DefaultsRegistry.all_rewritten`: `all(d.is_rewritten for d in ...)`. -/
def DefaultsRegistry.all_rewritten (r : Registry) : Bool :=
  r.all (fun d => d.is_rewritten)

/-- `DefaultsRegistry._register`: `self._defaults[default.key] = default`.
Python dict assignment replaces an existing entry in place (keeping its
position) and otherwise appends. -/
def DefaultsRegistry.register (r : Registry) (d : Default) : Registry :=
  if r.any (fun e => e.key == d.key) then
    r.map (fun e => if e.key == d.key then d else e)
  else r ++ [d]

/-- The catalog registered by `DefaultsRegistry._register_all`, in source
order. -/
def catalogDefaults : List Default :=
  [ Default.make "timing_window" "Timing Window Width"
      "Assumes all players react within 200 ms. Penalises slower processing speeds."
      .TIMING 0.2 0.5
  , Default.make "platform_rhythm" "Platform Rhythm"
      "Platforms move at one fixed tempo. No accommodation for observation before action."
      .TIMING 1.0 0.6
  , Default.make "coyote_time" "Coyote Time"
      "Zero grace period after leaving a ledge. Assumes instant spatial awareness."
      .TIMING 0.0 0.2
  , Default.make "jump_buffer" "Jump Buffer Window"
      "No input buffering. Requires frame-perfect timing."
      .TIMING 0.0 0.15
  , Default.make "visual_clutter" "Visual Density"
      "All particle effects, decorations, and ambient motion rendered simultaneously. Assumes high sensory filtering."
      .SENSORY 1.0 0.4
  , Default.make "audio_layering" "Audio Layering"
      "Multiple concurrent audio streams with no ducking. Assumes ability to parse layered sound."
      .SENSORY 1.0 0.5
  , Default.make "screen_shake" "Screen Shake Intensity"
      "Full camera shake on impacts. Assumes vestibular comfort."
      .SENSORY 1.0 0.0
  , Default.make "route_strictness" "Route Strictness"
      "Single valid path through each area. Penalises alternative approaches."
      .ROUTING 1.0 0.3
  , Default.make "safe_route_visibility" "Safe Route Visibility"
      "Accessible routes are hidden behind harder paths. Assumes safe routes are \x27easy mode\x27."
      .ROUTING 0.0 1.0
  , Default.make "communication_rigidity" "Communication Mode"
      "Only one expression style is accepted. Penalises non-verbal or icon-based communication."
      .SOCIAL 1.0 0.0
  , Default.make "social_script_penalty" "Social Script Penalty"
      "NPCs penalise \x27unexpected\x27 dialogue responses. Assumes one correct conversational flow."
      .SOCIAL 1.0 0.0
  , Default.make "failure_penalty" "Failure Penalty"
      "Falling or missing a jump resets significant progress. Assumes failure is deviation, not information."
      .FAILURE 1.0 0.1
  , Default.make "retry_cost" "Retry Cost"
      "Retrying a section costs resources. Assumes learning happens on the first attempt."
      .FAILURE 1.0 0.0
  , Default.make "consent_gates" "Consent Gates"
      "No confirmation before danger zones. Assumes willingness to proceed."
      .CONSENT 0.0 1.0
  , Default.make "opt_out_available" "Opt-Out Availability"
      "No way to leave an encounter once started. Assumes commitment is always free."
      .CONSENT 0.0 1.0 ]

/-- The registry produced by `DefaultsRegistry.__init__`: every catalog
entry registered in order into an empty dict. -/
def initRegistry : Registry :=
  catalogDefaults.foldl DefaultsRegistry.register []

/-! ### Event system (src/core/events.py) -/

/-- The `Event` dataclass: a type tag, a string payload dict, and an
advisory source.  Every payload the verbs emit maps strings to strings. -/
structure Event where
  type : String
  data : List (String × String)
  source : String
deriving DecidableEq, Repr

/-- `EventType.DEFAULT_READ`. -/
def EventType.DEFAULT_READ : String := "default_read"

/-- `EventType.DEFAULT_REWRITTEN`. -/
def EventType.DEFAULT_REWRITTEN : String := "default_rewritten"

/-- `EventBus.emit` as it affects `_history`: the event is appended, then
all current subscribers are invoked synchronously before `emit` returns.
Only the history is carried in the state; what a synchronous subscriber
can observe of the registry is exactly the registry component of the
state at the moment of emission. -/
def EventBus.emit (history : List Event) (e : Event) : List Event :=
  history ++ [e]

/-! ### Translation verbs (src/systems/signals.py) -/

/-- The mutable state a `TranslationVerbs` instance closes over: the
registry it mutates and the bus history it appends to. -/
structure TranslationState where
  registry : Registry
  history : List Event
deriving DecidableEq, Repr

/-- Python truthiness of the `Optional[str]` result in
`if result:` — `None` and the empty string are falsy. -/
def pyTruthyStr (s : Option String) : Bool :=
  match s with
  | none => false
  | some str => !(str == "")

/-- `TranslationVerbs.read_default`: delegates to `DefaultsRegistry.read`;
when the result is truthy, emits a `DEFAULT_READ` event carrying the key
and description. -/
def TranslationVerbs.read_default (s : TranslationState) (key : String) :
    TranslationState × Option String :=
  match DefaultsRegistry.read s.registry key with
  | (r, none) => ({ registry := r, history := s.history }, none)
  | (r, some str) =>
      if str == "" then ({ registry := r, history := s.history }, some str)
      else
        ({ registry := r
           history := EventBus.emit s.history
             { type := EventType.DEFAULT_READ
               data := [("key", key), ("description", str)]
               source := "translation_verbs" } }, some str)

/-- `TranslationVerbs.rewrite_default`: delegates to
`DefaultsRegistry.rewrite`; on success emits a `DEFAULT_REWRITTEN` event
carrying the key and the `via_mode` tag. -/
def TranslationVerbs.rewrite_default (s : TranslationState) (key via_mode : String) :
    TranslationState × Bool :=
  match DefaultsRegistry.rewrite s.registry key with
  | (r, false) => ({ registry := r, history := s.history }, false)
  | (r, true) =>
      ({ registry := r
         history := EventBus.emit s.history
           { type := EventType.DEFAULT_REWRITTEN
             data := [("key", key), ("mode", via_mode)]
             source := "translation_verbs" } }, true)

/-! ### Operation sequences -/

/-- An operation on a single `Default` object. -/
inductive DefaultOp where
  | readOp
  | rewriteOp
deriving DecidableEq, Repr

/-- Apply one `Default` operation, keeping the mutated object. -/
def stepDefault (d : Default) (op : DefaultOp) : Default :=
  match op with
  | .readOp => (Default.read d).1
  | .rewriteOp => (Default.rewrite d).1

/-- A mutating operation on the registry (`get` and the query methods do
not mutate). -/
inductive RegistryOp where
  | readR (key : String)
  | rewriteR (key : String)
deriving DecidableEq, Repr

/-- Apply one registry operation, keeping the mutated registry. -/
def stepRegistry (r : Registry) (op : RegistryOp) : Registry :=
  match op with
  | .readR key => (DefaultsRegistry.read r key).1
  | .rewriteR key => (DefaultsRegistry.rewrite r key).1

/-- Run a sequence of registry operations. -/
def runRegistry (r : Registry) (ops : List RegistryOp) : Registry :=
  ops.foldl stepRegistry r

/-- A player-facing verb invocation. -/
inductive VerbOp where
  | readD (key : String)
  | rewriteD (key : String) (mode : String)
deriving DecidableEq, Repr

/-- Apply one verb, keeping the mutated state. -/
def stepVerb (s : TranslationState) (op : VerbOp) : TranslationState :=
  match op with
  | .readD key => (TranslationVerbs.read_default s key).1
  | .rewriteD key mode => (TranslationVerbs.rewrite_default s key mode).1

/-- Run a sequence of verbs. -/
def runVerbs (s : TranslationState) (ops : List VerbOp) : TranslationState :=
  ops.foldl stepVerb s

/-- The freshly constructed system: the full catalog registry and an
empty bus history. -/
def initState : TranslationState :=
  { registry := initRegistry, history := [] }

/-- How many `DEFAULT_READ` events for `key` a history holds. -/
def readEventsFor (history : List Event) (key : String) : Nat :=
  history.countP
    (fun e => e.type == EventType.DEFAULT_READ && e.data.lookup "key" == some key)

/-! ### Consumer adapters -/

/-- Python `a or b` on a float-or-None left operand: `None` and `0.0`
are falsy, so either yields the fallback. -/
def pyOrFloat (v : Option ℚ) (fallback : ℚ) : ℚ :=
  match v with
  | none => fallback
  | some x => if x = 0 then fallback else x

/-- The `SensoryProfile` dataclass from src/accessibility/sensory_rules.py. -/
structure SensoryProfile where
  visual_density : ℚ
  audio_layers : ℚ
  screen_shake : ℚ
  subtitle_style : String
  motion_intensity : ℚ
deriving DecidableEq, Repr

/-- `get_sensory_profile`: builds a profile with call-site
`registry.get(key) or constant` fallbacks. -/
def get_sensory_profile (r : Registry) : SensoryProfile :=
  { visual_density := pyOrFloat (DefaultsRegistry.get r "visual_clutter") 0.4
    audio_layers := pyOrFloat (DefaultsRegistry.get r "audio_layering") 0.5
    screen_shake := pyOrFloat (DefaultsRegistry.get r "screen_shake") 0.0
    subtitle_style := "standard"
    motion_intensity := pyOrFloat (DefaultsRegistry.get r "platform_rhythm") 0.6 }

/-- `WindprintMode` from src/systems/windprint.py (only the active-mode
field matters to `get_route_flexibility`). -/
inductive WindprintMode where
  | CUSHION
  | GUARD
deriving DecidableEq, Repr

/-- `WindprintRigSystem.get_route_flexibility`:
`1.0 - (registry.get("route_strictness") or 1.0)`, halved under Guard. -/
def get_route_flexibility (r : Registry) (active_mode : Option WindprintMode) : ℚ :=
  let base := 1 - pyOrFloat (DefaultsRegistry.get r "route_strictness") 1
  if active_mode == some WindprintMode.GUARD then base * 0.5 else base

/-! ### Content data (presets and chapters) -/

/-- The `Preset` dataclass from src/accessibility/presets.py. -/
structure Preset where
  id : String
  name : String
  note : String
  overrides : List (String × ℚ)
deriving DecidableEq, Repr

/-- The built-in `PRESETS` catalog (dict values in source order; the
description text, irrelevant to the claims, is kept short here as
`note`). -/
def PRESETS : List Preset :=
  [ { id := "default", name := "Society Standard", note := "as designed"
      overrides := [] }
  , { id := "gentle", name := "Gentle Current", note := "wider timing"
      overrides :=
        [ ("timing_window", 0.6), ("visual_clutter", 0.3)
        , ("audio_layering", 0.4), ("screen_shake", 0.0)
        , ("failure_penalty", 0.0), ("platform_rhythm", 0.5) ] }
  , { id := "focused", name := "Focused Flow", note := "sensory clarity"
      overrides :=
        [ ("visual_clutter", 0.2), ("audio_layering", 0.3)
        , ("screen_shake", 0.0), ("route_strictness", 0.2)
        , ("safe_route_visibility", 1.0) ] }
  , { id := "challenge", name := "Sharp Edge", note := "tighter timing"
      overrides :=
        [ ("timing_window", 0.25), ("platform_rhythm", 0.9)
        , ("coyote_time", 0.08), ("failure_penalty", 0.3) ] }
  , { id := "low_motion", name := "Still Air", note := "vestibular comfort"
      overrides :=
        [ ("screen_shake", 0.0), ("visual_clutter", 0.3)
        , ("platform_rhythm", 0.5) ] } ]

/-- The `Chapter` dataclass from src/narrative/chapters_data.py, reduced
to the fields the registry contract touches. -/
structure Chapter where
  number : Nat
  name : String
  location : String
  defaults_to_rewrite : List String
deriving DecidableEq, Repr

/-- The 12-chapter `CHAPTERS` catalog. -/
def CHAPTERS : List Chapter :=
  [ { number := 1, name := "Bract Theory", location := "windgap_academy"
      defaults_to_rewrite := ["timing_window", "coyote_time"] }
  , { number := 2, name := "Felt Memory", location := "windgap_academy"
      defaults_to_rewrite := ["visual_clutter", "audio_layering"] }
  , { number := 3, name := "Rayless Form", location := "windgap_academy"
      defaults_to_rewrite := ["communication_rigidity"] }
  , { number := 4, name := "Umbel Logic", location := "umbel_gardens"
      defaults_to_rewrite := ["platform_rhythm"] }
  , { number := 5, name := "Tickshape Rule", location := "umbel_gardens"
      defaults_to_rewrite := ["consent_gates", "opt_out_available"] }
  , { number := 6, name := "Smoke Signal", location := "smoke_margin"
      defaults_to_rewrite := ["retry_cost"] }
  , { number := 7, name := "Afterrain Bloom", location := "smoke_margin"
      defaults_to_rewrite := ["safe_route_visibility"] }
  , { number := 8, name := "Sandstone Drift", location := "sandstone_quarter"
      defaults_to_rewrite := ["route_strictness"] }
  , { number := 9, name := "Eucalypt Veil", location := "veil_market"
      defaults_to_rewrite := ["screen_shake"] }
  , { number := 10, name := "Clonal Echo", location := "veil_market"
      defaults_to_rewrite := ["social_script_penalty"] }
  , { number := 11, name := "Edge Reliquary", location := "reliquary_edge"
      defaults_to_rewrite := ["failure_penalty"] }
  , { number := 12, name := "Refound Light", location := "reliquary_edge"
      defaults_to_rewrite := ["jump_buffer"] } ]

/-- Does the registry hold an entry under `key`? -/
def registryHasKey (r : Registry) (key : String) : Bool :=
  r.any (fun d => d.key == key)

/-! ### Auxiliary predicates and concrete states used by the theorems -/

/-- The documented value invariant: `current_value` equals
`rewritten_value` when `is_rewritten`, else `rigid_value`. -/
def valueConsistent (d : Default) : Prop :=
  d.current_value = if d.is_rewritten then d.rewritten_value else d.rigid_value

/-- Keys are pairwise distinct — true of every registry a Python dict
can represent, and of `initRegistry`. -/
def uniqueKeys (r : Registry) : Prop :=
  (r.map (fun d => d.key)).Nodup

/-- The `timing_window` default after its `read()`: a concrete
already-read state used by witnesses. -/
def readyDefault : Default :=
  { Default.make "timing_window" "Timing Window Width"
      "Assumes all players react within 200 ms. Penalises slower processing speeds."
      .TIMING 0.2 0.5 with is_read := true }

/-- A first registration under key `timing_window`. -/
def dupOld : Default :=
  Default.make "timing_window" "Old Label" "first registration" .TIMING 0.2 0.5

/-- A second, different registration under the same key. -/
def dupNew : Default :=
  Default.make "timing_window" "New Label" "second registration" .TIMING 0.9 0.1

/-- A `visual_clutter` entry whose stored current value is `0.0`
(the dataclass accepts an explicit `current_value`). -/
def visualClutterZero : Default :=
  { key := "visual_clutter"
    label := "Visual Density"
    description := "All particle effects, decorations, and ambient motion rendered simultaneously. Assumes high sensory filtering."
    category := .SENSORY
    rigid_value := 1
    rewritten_value := 0.4
    current_value := 0
    is_read := true
    is_rewritten := false }

/-- A `route_strictness` entry whose stored current value is `0.0`. -/
def routeStrictnessZero : Default :=
  { key := "route_strictness"
    label := "Route Strictness"
    description := "Single valid path through each area. Penalises alternative approaches."
    category := .ROUTING
    rigid_value := 1
    rewritten_value := 0.3
    current_value := 0
    is_read := true
    is_rewritten := false }

/-- A registry state holding the two consumed keys with stored value
`0.0`. -/
def regWithZeroes : Registry := [visualClutterZero, routeStrictnessZero]

/-- The same registry state with those keys absent. -/
def regWithout : Registry := []

/-- Every already-read default is witnessed by a `DEFAULT_READ` event
for its key somewhere in the bus history. -/
def readImpliesEvent (s : TranslationState) : Prop :=
  ∀ d ∈ s.registry, d.is_read = true →
    ∃ e ∈ s.history, e.type = EventType.DEFAULT_READ ∧ e.data.lookup "key" = some d.key

/-! ### Helper lemmas -/

/-- `find?` commutes with a key-preserving map. -/
theorem lookupDefault_map_of_key_eq (f : Default → Default)
    (hf : ∀ e, (f e).key = e.key) (r : Registry) (key : String) :
    lookupDefault (r.map f) key = (lookupDefault r key).map f := by
  induction r with
  | nil => rfl
  | cons a t ih =>
      unfold lookupDefault at ih ⊢
      rw [List.map_cons, List.find?_cons, List.find?_cons, hf a]
      cases h : (a.key == key) <;> simp [ih]

/-- The in-place dict update used by `read`/`rewrite`/`_register`
preserves every entry's key, provided the new entry sits under the
looked-up key. -/
theorem update_key_eq (key : String) (x : Default) (hx : x.key = key) :
    ∀ e : Default, (if e.key == key then x else e).key = e.key := by
  intro e
  by_cases h : (e.key == key) = true
  · rw [if_pos h, hx, beq_iff_eq.mp h]
  · rw [if_neg h]

/-- Looking up the updated key after an in-place dict update yields the
new entry. -/
theorem lookupDefault_update_self (r : Registry) (key : String) (x d : Default)
    (hx : x.key = key) (hd : lookupDefault r key = some d) :
    lookupDefault (r.map fun e => if e.key == key then x else e) key = some x := by
  rw [lookupDefault_map_of_key_eq _ (update_key_eq key x hx), hd]
  have hd' : r.find? (fun e => e.key == key) = some d := hd
  have hk := List.find?_some hd'
  simp [beq_iff_eq.mp hk]

/-- The description built by `Default.read` is never the empty string
(it starts with an opening bracket), so `if result:` always emits. -/
theorem read_description_ne_empty (d : Default) : (Default.read d).2 ≠ "" := by
  intro h
  have hl := congrArg String.length h
  simp only [Default.read, String.length_append] at hl
  have h1 : 0 < "[".length := by decide
  have h0 : ("" : String).length = 0 := by decide
  omega

/-- A found entry's key matches the looked-up key. -/
theorem lookupDefault_key (r : Registry) (key : String) (d : Default)
    (hd : lookupDefault r key = some d) : d.key = key := by
  have hd' : r.find? (fun e => e.key == key) = some d := hd
  have hk := List.find?_some hd'
  exact beq_iff_eq.mp hk

/-- A found entry is a member of the registry. -/
theorem lookupDefault_mem (r : Registry) (key : String) (d : Default)
    (hd : lookupDefault r key = some d) : d ∈ r := by
  have hd' : r.find? (fun e => e.key == key) = some d := hd
  exact List.mem_of_find?_eq_some hd'

/-- One `Default` operation preserves the value invariant. -/
theorem stepDefault_valueConsistent (d : Default) (op : DefaultOp)
    (h : valueConsistent d) : valueConsistent (stepDefault d op) := by
  cases op with
  | readOp =>
      simpa [stepDefault, Default.read, valueConsistent] using h
  | rewriteOp =>
      by_cases hr : d.is_read = false
      · simpa [stepDefault, Default.rewrite, hr] using h
      · simp [stepDefault, Default.rewrite, hr, valueConsistent]

/-- Either a registry operation misses (unknown key, registry
unchanged) or it is an in-place update of the found entry by a
key-preserving, flag-monotone replacement. -/
theorem stepRegistry_shape (r : Registry) (op : RegistryOp) :
    stepRegistry r op = r ∨
    ∃ (k : String) (d0 x : Default),
      lookupDefault r k = some d0 ∧
      x.key = d0.key ∧
      (d0.is_read = true → x.is_read = true) ∧
      (d0.is_rewritten = true → x.is_rewritten = true) ∧
      stepRegistry r op = r.map (fun e => if e.key == k then x else e) := by
  cases op with
  | readR k =>
      cases hk : lookupDefault r k with
      | none =>
          left
          simp only [stepRegistry, DefaultsRegistry.read, hk]
      | some d0 =>
          right
          refine ⟨k, d0, (Default.read d0).1, hk, rfl, fun _ => rfl, ?_, ?_⟩
          · intro h; simpa [Default.read] using h
          · simp only [stepRegistry, DefaultsRegistry.read, hk]
  | rewriteR k =>
      cases hk : lookupDefault r k with
      | none =>
          left
          simp only [stepRegistry, DefaultsRegistry.rewrite, hk]
      | some d0 =>
          right
          refine ⟨k, d0, (Default.rewrite d0).1, hk, ?_, ?_, ?_, ?_⟩
          · cases hrb : d0.is_read <;> simp [Default.rewrite, hrb]
          · intro h; simp [Default.rewrite, h]
          · intro h; cases hrb : d0.is_read <;> simp [Default.rewrite, hrb, h]
          · simp only [stepRegistry, DefaultsRegistry.rewrite, hk]

/-- One registry operation can only keep or raise each entry's flags. -/
theorem stepRegistry_lookup_flags (r : Registry) (op : RegistryOp) (key : String)
    (d : Default) (hd : lookupDefault r key = some d) :
    ∃ d', lookupDefault (stepRegistry r op) key = some d' ∧
      (d.is_read = true → d'.is_read = true) ∧
      (d.is_rewritten = true → d'.is_rewritten = true) := by
  rcases stepRegistry_shape r op with h | ⟨k, d0, x, hk, hxkey, hf1, hf2, heq⟩
  · exact ⟨d, by rw [h]; exact hd, fun a => a, fun a => a⟩
  · have hxk : x.key = k := hxkey.trans (lookupDefault_key r k d0 hk)
    rw [heq, lookupDefault_map_of_key_eq _ (update_key_eq k x hxk), hd]
    by_cases hdk : d.key = k
    · have h1 : d.key = key := lookupDefault_key r key d hd
      have h2 : key = k := h1.symm.trans hdk
      subst h2
      have hdd : d = d0 := by
        rw [hd] at hk
        exact Option.some.inj hk
      subst hdd
      exact ⟨x, by simp [hdk], hf1, hf2⟩
    · exact ⟨d, by simp [hdk], fun a => a, fun a => a⟩

/-- Registry operations never change the key sequence. -/
theorem stepRegistry_keys (r : Registry) (op : RegistryOp) :
    (stepRegistry r op).map (fun d => d.key) = r.map (fun d => d.key) := by
  rcases stepRegistry_shape r op with h | ⟨k, d0, x, hk, hxkey, _, _, heq⟩
  · rw [h]
  · have hxk : x.key = k := hxkey.trans (lookupDefault_key r k d0 hk)
    rw [heq, List.map_map]
    exact List.map_congr_left (fun e _ => update_key_eq k x hxk e)

/-- With unique keys, the entry found under a key is the only member
carrying that key. -/
theorem lookupDefault_unique (r : Registry) (hu : uniqueKeys r) (k : String)
    (d0 : Default) (hk : lookupDefault r k = some d0) :
    ∀ e ∈ r, e.key = k → e = d0 := by
  intro e he hek
  have hd0 : d0 ∈ r := lookupDefault_mem r k d0 hk
  have hkeys : e.key = d0.key := hek.trans (lookupDefault_key r k d0 hk).symm
  exact List.inj_on_of_nodup_map hu he hd0 hkeys

/-- One registry operation never lowers the rewritten count (on a
registry with unique keys, as every dict-backed registry has). -/
theorem stepRegistry_rewritten_count (r : Registry) (op : RegistryOp)
    (hu : uniqueKeys r) :
    DefaultsRegistry.rewritten_count r ≤
      DefaultsRegistry.rewritten_count (stepRegistry r op) := by
  rcases stepRegistry_shape r op with h | ⟨k, d0, x, hk, hxkey, _, hf2, heq⟩
  · rw [h]
  · rw [heq]
    unfold DefaultsRegistry.rewritten_count
    rw [List.countP_map]
    refine List.countP_mono_left (fun e he hre => ?_)
    simp only [Function.comp_apply]
    by_cases hek : e.key = k
    · have he0 : e = d0 := lookupDefault_unique r hu k d0 hk e he hek
      subst he0
      rw [if_pos (beq_iff_eq.mpr hek)]
      exact hf2 hre
    · rw [if_neg (by simpa using hek)]
      exact hre

/-- One registry operation never lowers `progress`. -/
theorem stepRegistry_progress (r : Registry) (op : RegistryOp) (hu : uniqueKeys r) :
    DefaultsRegistry.progress r ≤ DefaultsRegistry.progress (stepRegistry r op) := by
  have hlen : (stepRegistry r op).length = r.length := by
    have h := congrArg List.length (stepRegistry_keys r op)
    simpa using h
  unfold DefaultsRegistry.progress
  by_cases h0 : r.length = 0
  · rw [if_pos h0, if_pos (by rw [hlen]; exact h0)]
  · rw [if_neg h0, if_neg (by rw [hlen]; exact h0), hlen]
    have hcnt := stepRegistry_rewritten_count r op hu
    gcongr

/-- Sequences of registry operations keep or raise each entry's flags. -/
theorem runRegistry_lookup_flags (ops : List RegistryOp) (r : Registry) (key : String)
    (d : Default) (hd : lookupDefault r key = some d) :
    ∃ d', lookupDefault (runRegistry r ops) key = some d' ∧
      (d.is_read = true → d'.is_read = true) ∧
      (d.is_rewritten = true → d'.is_rewritten = true) := by
  induction ops generalizing r d with
  | nil => exact ⟨d, hd, fun a => a, fun a => a⟩
  | cons op t ih =>
      obtain ⟨d1, hd1, f1, g1⟩ := stepRegistry_lookup_flags r op key d hd
      obtain ⟨d', hd', f2, g2⟩ := ih (stepRegistry r op) d1 hd1
      exact ⟨d', hd', fun a => f2 (f1 a), fun a => g2 (g1 a)⟩

/-- `progress` is non-decreasing along any operation sequence. -/
theorem runRegistry_progress (ops : List RegistryOp) (r : Registry) (hu : uniqueKeys r) :
    DefaultsRegistry.progress r ≤ DefaultsRegistry.progress (runRegistry r ops) := by
  induction ops generalizing r with
  | nil => exact le_refl _
  | cons op t ih =>
      refine le_trans (stepRegistry_progress r op hu) (ih _ ?_)
      unfold uniqueKeys at hu ⊢
      rw [stepRegistry_keys]
      exact hu

/-- `rewrite` never changes `is_read`. -/
theorem rewrite_fst_is_read (d : Default) : (Default.rewrite d).1.is_read = d.is_read := by
  cases hb : d.is_read <;> simp [Default.rewrite, hb]

/-- `rewrite` never changes the key. -/
theorem rewrite_fst_key (d : Default) : (Default.rewrite d).1.key = d.key := by
  cases hb : d.is_read <;> simp [Default.rewrite, hb]

/-- One verb invocation preserves the invariant that every already-read
default has a `DEFAULT_READ` event for its key in the history. -/
theorem stepVerb_readImpliesEvent (s : TranslationState) (op : VerbOp)
    (h : readImpliesEvent s) : readImpliesEvent (stepVerb s op) := by
  cases op with
  | readD k =>
      cases hk : lookupDefault s.registry k with
      | none =>
          have hstate : stepVerb s (.readD k) = s := by
            simp only [stepVerb, TranslationVerbs.read_default, DefaultsRegistry.read, hk]
          rw [hstate]; exact h
      | some d0 =>
          have hne : ((Default.read d0).2 == "") = false :=
            beq_eq_false_iff_ne.mpr (read_description_ne_empty d0)
          have hstate : stepVerb s (.readD k)
              = { registry := s.registry.map
                    (fun e => if e.key == k then (Default.read d0).1 else e)
                  history := s.history
                    ++ [{ type := EventType.DEFAULT_READ
                          data := [("key", k), ("description", (Default.read d0).2)]
                          source := "translation_verbs" }] } := by
            simp only [stepVerb, TranslationVerbs.read_default, DefaultsRegistry.read, hk,
              hne, EventBus.emit, Bool.false_eq_true, if_false]
          rw [hstate]
          intro d' hd' hr'
          obtain ⟨e, he, hfe⟩ := List.mem_map.mp hd'
          subst hfe
          by_cases hek : e.key = k
          · rw [if_pos (beq_iff_eq.mpr hek)] at hr' ⊢
            refine ⟨_, List.mem_append_right _ (List.mem_singleton_self _), rfl, ?_⟩
            have hdk : (Default.read d0).1.key = k :=
              lookupDefault_key s.registry k d0 hk
            rw [hdk]
            rfl
          · rw [if_neg (by simpa using hek)] at hr' ⊢
            obtain ⟨ev, hev, hty, hkey⟩ := h e he hr'
            exact ⟨ev, List.mem_append_left _ hev, hty, hkey⟩
  | rewriteD k m =>
      cases hk : lookupDefault s.registry k with
      | none =>
          have hstate : stepVerb s (.rewriteD k m) = s := by
            simp only [stepVerb, TranslationVerbs.rewrite_default, DefaultsRegistry.rewrite, hk]
          rw [hstate]; exact h
      | some d0 =>
          have hmem0 : d0 ∈ s.registry := lookupDefault_mem s.registry k d0 hk
          have hkey0 : d0.key = k := lookupDefault_key s.registry k d0 hk
          have main : ∀ hist : List Event, s.history.Sublist hist →
              readImpliesEvent
                { registry := s.registry.map
                    (fun e => if e.key == k then (Default.rewrite d0).1 else e)
                  history := hist } := by
            intro hist hsub d' hd' hr'
            obtain ⟨e, he, hfe⟩ := List.mem_map.mp hd'
            subst hfe
            by_cases hek : e.key = k
            · rw [if_pos (beq_iff_eq.mpr hek)] at hr' ⊢
              rw [rewrite_fst_is_read] at hr'
              obtain ⟨ev, hev, hty, hkey⟩ := h d0 hmem0 hr'
              rw [rewrite_fst_key]
              exact ⟨ev, hsub.mem hev, hty, hkey⟩
            · rw [if_neg (by simpa using hek)] at hr' ⊢
              obtain ⟨ev, hev, hty, hkey⟩ := h e he hr'
              exact ⟨ev, hsub.mem hev, hty, hkey⟩
          cases hb : (Default.rewrite d0).2 with
          | false =>
              have hstate : stepVerb s (.rewriteD k m)
                  = { registry := s.registry.map
                        (fun e => if e.key == k then (Default.rewrite d0).1 else e)
                      history := s.history } := by
                simp only [stepVerb, TranslationVerbs.rewrite_default,
                  DefaultsRegistry.rewrite, hk, hb]
              rw [hstate]
              exact main s.history (List.Sublist.refl _)
          | true =>
              have hstate : stepVerb s (.rewriteD k m)
                  = { registry := s.registry.map
                        (fun e => if e.key == k then (Default.rewrite d0).1 else e)
                      history := s.history
                        ++ [{ type := EventType.DEFAULT_REWRITTEN
                              data := [("key", k), ("mode", m)]
                              source := "translation_verbs" }] } := by
                simp only [stepVerb, TranslationVerbs.rewrite_default,
                  DefaultsRegistry.rewrite, hk, hb, EventBus.emit]
              rw [hstate]
              exact main _ (List.sublist_append_left _ _)

/-- The invariant holds in every state the verbs can reach from the
fresh system. -/
theorem runVerbs_readImpliesEvent (ops : List VerbOp) :
    readImpliesEvent (runVerbs initState ops) := by
  have h0 : readImpliesEvent initState := by
    intro d hd hr
    exfalso
    have hall : initRegistry.all (fun d => d.is_read == false) = true := by decide
    have hdf := List.all_eq_true.mp hall d hd
    rw [hr] at hdf
    exact absurd hdf (by decide)
  have gen : ∀ (l : List VerbOp) (s : TranslationState),
      readImpliesEvent s → readImpliesEvent (runVerbs s l) := by
    intro l
    induction l with
    | nil => exact fun s h => h
    | cons op t ih => exact fun s h => ih _ (stepVerb_readImpliesEvent s op h)
  exact gen ops initState h0

/-! ### Claim theorems -/

/-- C1: `Default.rewrite` succeeds exactly when `is_read` is true at
call time.  When `is_read` is false it returns `False` and mutates
nothing; when `is_read` is true it returns `True`, sets `is_rewritten`
and sets `current_value` to `rewritten_value`. -/
theorem rewrite_read_gate (d : Default) :
    (d.is_read = false → Default.rewrite d = (d, false)) ∧
    (d.is_read = true →
      Default.rewrite d =
        ({ d with is_rewritten := true, current_value := d.rewritten_value }, true)) := by
  constructor <;> intro h <;> simp [Default.rewrite, h]

/-- Witness for C1 at the already-read `timing_window` default. -/
theorem rewrite_read_gate_witness :
    Default.rewrite readyDefault =
      ({ readyDefault with is_rewritten := true, current_value := readyDefault.rewritten_value },
        true) :=
  (rewrite_read_gate readyDefault).2 rfl

/-- C2: from a freshly registered `Default` (whose `current_value`
starts at `rigid_value`), every sequence of `read()`/`rewrite()`
operations keeps `current_value` equal to `rewritten_value` when
`is_rewritten` is true and to `rigid_value` when it is false. -/
theorem current_value_consistency (key label descr : String)
    (category : DefaultCategory) (rigid rewritten : ℚ) (ops : List DefaultOp) :
    valueConsistent
      (ops.foldl stepDefault (Default.make key label descr category rigid rewritten)) := by
  have gen : ∀ (l : List DefaultOp) (d : Default), valueConsistent d →
      valueConsistent (l.foldl stepDefault d) := by
    intro l
    induction l with
    | nil => exact fun d h => h
    | cons op t ih => exact fun d h => ih _ (stepDefault_valueConsistent d op h)
  exact gen ops _ (by simp [valueConsistent, Default.make])

/-- C5: for an unknown key every registry query returns its explicit
absent/failure sentinel without mutating anything, and for a registered
key `get` returns that entry's `current_value`. -/
theorem unknown_key_sentinel (r : Registry) (key : String) :
    (lookupDefault r key = none →
      DefaultsRegistry.get r key = none ∧
      DefaultsRegistry.read r key = (r, none) ∧
      DefaultsRegistry.rewrite r key = (r, false)) ∧
    (∀ d, lookupDefault r key = some d →
      DefaultsRegistry.get r key = some d.current_value) := by
  constructor
  · intro h
    refine ⟨?_, ?_, ?_⟩ <;>
      simp [DefaultsRegistry.get, DefaultsRegistry.read, DefaultsRegistry.rewrite, h]
  · intro d h
    simp [DefaultsRegistry.get, h]

/-- Witness for C5 on the constructed registry: `nonexistent_key` is
absent, `timing_window` is present with its rigid value. -/
theorem unknown_key_sentinel_witness :
    DefaultsRegistry.get initRegistry "nonexistent_key" = none ∧
    DefaultsRegistry.read initRegistry "nonexistent_key" = (initRegistry, none) ∧
    DefaultsRegistry.rewrite initRegistry "nonexistent_key" = (initRegistry, false) ∧
    DefaultsRegistry.get initRegistry "timing_window"
      = some (Default.make "timing_window" "Timing Window Width"
          "Assumes all players react within 200 ms. Penalises slower processing speeds."
          .TIMING 0.2 0.5).current_value :=
  ⟨((unknown_key_sentinel initRegistry "nonexistent_key").1 rfl).1,
   ((unknown_key_sentinel initRegistry "nonexistent_key").1 rfl).2.1,
   ((unknown_key_sentinel initRegistry "nonexistent_key").1 rfl).2.2,
   (unknown_key_sentinel initRegistry "timing_window").2 _ rfl⟩

/-- C6: `read()` is total and idempotent — on an already-read default a
further `read()` changes nothing and returns the same description — and
`rewrite()` after a successful `rewrite()` returns `True` and leaves all
state unchanged (idempotent success). -/
theorem read_rewrite_idempotent (d0 : Default) :
    (Default.read (Default.read d0).1 = ((Default.read d0).1, (Default.read d0).2)) ∧
    ((Default.rewrite d0).2 = true →
      Default.rewrite (Default.rewrite d0).1 = ((Default.rewrite d0).1, true)) := by
  constructor
  · simp [Default.read]
  · intro h
    by_cases hr : d0.is_read = false
    · rw [Default.rewrite, if_pos hr] at h
      simp at h
    · simp [Default.rewrite, hr]

/-- Witness for C6: rewriting the already-rewritten `timing_window`
default again is an idempotent success. -/
theorem read_rewrite_idempotent_witness :
    Default.rewrite (Default.rewrite readyDefault).1
      = ((Default.rewrite readyDefault).1, true) :=
  (read_rewrite_idempotent readyDefault).2 rfl

/-- C8: `via_mode` influences neither the returned boolean nor the
resulting registry state of `rewrite_default`. -/
theorem via_mode_no_influence (s : TranslationState) (key m1 m2 : String) :
    (TranslationVerbs.rewrite_default s key m1).2
      = (TranslationVerbs.rewrite_default s key m2).2 ∧
    (TranslationVerbs.rewrite_default s key m1).1.registry
      = (TranslationVerbs.rewrite_default s key m2).1.registry := by
  unfold TranslationVerbs.rewrite_default
  rcases h : DefaultsRegistry.rewrite s.registry key with ⟨r, b⟩
  cases b <;> simp

/-- C4 counterexample: `_register` on a key that is already present
silently replaces the existing entry — it does not fail. -/
theorem register_duplicate_cex :
    DefaultsRegistry.register [dupOld] dupNew = [dupNew] ∧ dupNew ≠ dupOld := by
  constructor
  · rfl
  · intro h
    have hla := congrArg Default.label h
    simp [dupOld, dupNew, Default.make] at hla

/-- C4 amended: registering a `Default` whose key is already present
silently overwrites the existing entry in place (last registration
wins) and signals no error. -/
theorem register_duplicate_overwrites (r : Registry) (d : Default)
    (h : (r.any fun e => e.key == d.key) = true) :
    DefaultsRegistry.register r d
        = r.map (fun e => if e.key == d.key then d else e) ∧
    lookupDefault (DefaultsRegistry.register r d) d.key = some d := by
  have hreg : DefaultsRegistry.register r d
      = r.map (fun e => if e.key == d.key then d else e) := by
    unfold DefaultsRegistry.register
    rw [if_pos h]
  refine ⟨hreg, ?_⟩
  rw [hreg]
  obtain ⟨e, he, hek⟩ := List.any_eq_true.mp h
  have hsome : (lookupDefault r d.key).isSome := by
    unfold lookupDefault
    rw [List.find?_isSome]
    exact ⟨e, he, hek⟩
  obtain ⟨d0, hd0⟩ := Option.isSome_iff_exists.mp hsome
  exact lookupDefault_update_self r d.key d d0 rfl hd0

/-- Witness for C4's amended claim at a concrete duplicate
registration. -/
theorem register_duplicate_overwrites_witness :
    DefaultsRegistry.register [dupOld] dupNew
        = [dupOld].map (fun e => if e.key == dupNew.key then dupNew else e) ∧
    lookupDefault (DefaultsRegistry.register [dupOld] dupNew) dupNew.key = some dupNew :=
  register_duplicate_overwrites [dupOld] dupNew rfl

/-- C9: the call-site pattern `registry.get(key) or constant` makes a
stored `0.0` indistinguishable from an absent key: with
`visual_clutter` and `route_strictness` present at current value `0.0`,
`get_sensory_profile` and `get_route_flexibility` return exactly what
they return when those keys are absent. -/
theorem fallback_masks_zero :
    DefaultsRegistry.get regWithZeroes "visual_clutter" = some 0 ∧
    DefaultsRegistry.get regWithout "visual_clutter" = none ∧
    get_sensory_profile regWithZeroes = get_sensory_profile regWithout ∧
    DefaultsRegistry.get regWithZeroes "route_strictness" = some 0 ∧
    DefaultsRegistry.get regWithout "route_strictness" = none ∧
    get_route_flexibility regWithZeroes none = get_route_flexibility regWithout none ∧
    get_route_flexibility regWithZeroes (some WindprintMode.GUARD)
      = get_route_flexibility regWithout (some WindprintMode.GUARD) ∧
    get_route_flexibility regWithZeroes (some WindprintMode.CUSHION)
      = get_route_flexibility regWithout (some WindprintMode.CUSHION) :=
  ⟨rfl, rfl, rfl, rfl, rfl, rfl, rfl, rfl⟩

/-- C10: every key referenced by the built-in presets' overrides and by
the chapters' `defaults_to_rewrite` lists resolves in the freshly
constructed registry. -/
theorem content_keys_resolve :
    (PRESETS.all fun p => p.overrides.all fun kv => registryHasKey initRegistry kv.1) = true ∧
    (CHAPTERS.all fun c => c.defaults_to_rewrite.all fun k =>
      registryHasKey initRegistry k) = true := by
  constructor <;> decide

/-- C7: `is_read` and `is_rewritten` are monotonic along any sequence
of registry operations, `is_rewritten` can only turn true while
`is_read` is true (and `read()` never touches it), and consequently
`progress` is non-decreasing over any operation sequence on a registry
with unique keys. -/
theorem flags_progress_monotone (r : Registry) (ops : List RegistryOp)
    (hu : uniqueKeys r) :
    (∀ key d, lookupDefault r key = some d →
      ∃ d', lookupDefault (runRegistry r ops) key = some d' ∧
        (d.is_read = true → d'.is_read = true) ∧
        (d.is_rewritten = true → d'.is_rewritten = true)) ∧
    (∀ d : Default, d.is_rewritten = false →
      (Default.rewrite d).1.is_rewritten = true → d.is_read = true) ∧
    (∀ d : Default, (Default.read d).1.is_rewritten = d.is_rewritten ∧
      (Default.read d).1.is_read = true ∧
      (Default.rewrite d).1.is_read = d.is_read) ∧
    DefaultsRegistry.progress r ≤ DefaultsRegistry.progress (runRegistry r ops) := by
  refine ⟨?_, ?_, ?_, runRegistry_progress ops r hu⟩
  · exact fun key d hd => runRegistry_lookup_flags ops r key d hd
  · intro d h1 h2
    cases hb : d.is_read
    · rw [Default.rewrite, if_pos hb] at h2
      rw [h1] at h2
      cases h2
    · rfl
  · intro d
    refine ⟨rfl, rfl, ?_⟩
    cases hb : d.is_read <;> simp [Default.rewrite, hb]

/-- C3 counterexample: from the fresh system, reading `timing_window`
twice and then rewriting it succeeds, yet two — not exactly one —
`DEFAULT_READ` events for that key were emitted before the
`DEFAULT_REWRITTEN` event. -/
theorem rewrite_event_ordering_cex :
    (TranslationVerbs.rewrite_default
        (runVerbs initState [VerbOp.readD "timing_window", VerbOp.readD "timing_window"])
        "timing_window" "cushion").2 = true ∧
    readEventsFor
        (runVerbs initState
          [VerbOp.readD "timing_window", VerbOp.readD "timing_window"]).history
        "timing_window" = 2 := by
  constructor <;> decide

/-- C3 (amended): within one successful `rewrite_default(key)` call the
registry entry is mutated before the event is emitted — the state in
which the `DEFAULT_REWRITTEN` event is dispatched to subscribers
already carries the rewritten entry — and at least one `DEFAULT_READ`
event for `key` was emitted strictly before the `DEFAULT_REWRITTEN`
event (it lies in the history segment preceding the appended event). -/
theorem rewrite_event_ordering (ops : List VerbOp) (key mode : String)
    (h : (TranslationVerbs.rewrite_default (runVerbs initState ops) key mode).2 = true) :
    (∃ d, lookupDefault
        (TranslationVerbs.rewrite_default (runVerbs initState ops) key mode).1.registry key
        = some d ∧ d.is_rewritten = true ∧ d.current_value = d.rewritten_value) ∧
    (TranslationVerbs.rewrite_default (runVerbs initState ops) key mode).1.history
      = (runVerbs initState ops).history
        ++ [{ type := EventType.DEFAULT_REWRITTEN
              data := [("key", key), ("mode", mode)]
              source := "translation_verbs" }] ∧
    1 ≤ readEventsFor (runVerbs initState ops).history key := by
  set s := runVerbs initState ops with hs
  have hinv : readImpliesEvent s := by
    rw [hs]; exact runVerbs_readImpliesEvent ops
  cases hk : lookupDefault s.registry key with
  | none =>
      exfalso
      have hrw : DefaultsRegistry.rewrite s.registry key = (s.registry, false) := by
        simp only [DefaultsRegistry.rewrite, hk]
      simp [TranslationVerbs.rewrite_default, hrw] at h
  | some d0 =>
      have hd0r : d0.is_read = true := by
        cases hbr : d0.is_read
        · exfalso
          have hb2 : (Default.rewrite d0).2 = false := by
            simp [Default.rewrite, hbr]
          have hrw : DefaultsRegistry.rewrite s.registry key
              = (s.registry.map (fun e => if e.key == key then (Default.rewrite d0).1 else e),
                 false) := by
            simp only [DefaultsRegistry.rewrite, hk, hb2]
          simp [TranslationVerbs.rewrite_default, hrw] at h
        · rfl
      have hb : (Default.rewrite d0).2 = true := by
        simp [Default.rewrite, hd0r]
      have hx : (Default.rewrite d0).1
          = { d0 with is_rewritten := true, current_value := d0.rewritten_value } := by
        simp [Default.rewrite, hd0r]
      have hrw : DefaultsRegistry.rewrite s.registry key
          = (s.registry.map (fun e => if e.key == key then (Default.rewrite d0).1 else e),
             true) := by
        simp only [DefaultsRegistry.rewrite, hk, hb]
      have hverb : TranslationVerbs.rewrite_default s key mode
          = ({ registry :=
                 s.registry.map (fun e => if e.key == key then (Default.rewrite d0).1 else e)
               history := s.history
                 ++ [{ type := EventType.DEFAULT_REWRITTEN
                       data := [("key", key), ("mode", mode)]
                       source := "translation_verbs" }] }, true) := by
        simp only [TranslationVerbs.rewrite_default, hrw, EventBus.emit]
      refine ⟨⟨(Default.rewrite d0).1, ?_, ?_, ?_⟩, ?_, ?_⟩
      · rw [hverb]
        exact lookupDefault_update_self s.registry key (Default.rewrite d0).1 d0
          ((rewrite_fst_key d0).trans (lookupDefault_key s.registry key d0 hk)) hk
      · rw [hx]
      · rw [hx]
      · rw [hverb]
      · obtain ⟨e, he, hty, hkey⟩ := hinv d0 (lookupDefault_mem s.registry key d0 hk) hd0r
        have hdk : d0.key = key := lookupDefault_key s.registry key d0 hk
        rw [hdk] at hkey
        have hpe : (e.type == EventType.DEFAULT_READ
            && e.data.lookup "key" == some key) = true := by
          simp [hty, hkey]
        have hpos : 0 < s.history.countP
            (fun e => e.type == EventType.DEFAULT_READ
              && e.data.lookup "key" == some key) :=
          List.countP_pos_iff.mpr ⟨e, he, hpe⟩
        exact hpos

/-- Witness for C3's amended claim: read then rewrite `timing_window`
via Cushion from the fresh system. -/
theorem rewrite_event_ordering_witness :
    (∃ d, lookupDefault
        (TranslationVerbs.rewrite_default
          (runVerbs initState [VerbOp.readD "timing_window"])
          "timing_window" "cushion").1.registry "timing_window"
        = some d ∧ d.is_rewritten = true ∧ d.current_value = d.rewritten_value) ∧
    (TranslationVerbs.rewrite_default (runVerbs initState [VerbOp.readD "timing_window"])
        "timing_window" "cushion").1.history
      = (runVerbs initState [VerbOp.readD "timing_window"]).history
        ++ [{ type := EventType.DEFAULT_REWRITTEN
              data := [("key", "timing_window"), ("mode", "cushion")]
              source := "translation_verbs" }] ∧
    1 ≤ readEventsFor (runVerbs initState [VerbOp.readD "timing_window"]).history
          "timing_window" :=
  rewrite_event_ordering [VerbOp.readD "timing_window"] "timing_window" "cushion" (by decide)

/-- Witness for C7: one `read` on the fresh registry does not lower
progress. -/
theorem flags_progress_monotone_witness :
    DefaultsRegistry.progress initRegistry
      ≤ DefaultsRegistry.progress
          (runRegistry initRegistry [RegistryOp.readR "timing_window"]) :=
  (flags_progress_monotone initRegistry [RegistryOp.readR "timing_window"]
    (by unfold uniqueKeys; decide)).2.2.2

end SpinyFlannel
